import Mathlib

/-!
Shallow embedding of the NLP desktop application found in
`modern_nlp_app.py` and `nlp_project.py`.

Python strings are modelled as lists of Unicode code points (`PyStr`).
The GUI display regions are modelled as `TextWidget` values; user-visible
dialogs and external pipeline invocations are recorded as `Event`s.
External `transformers` pipelines are passed in as parameters of type
`PyStr → Except PyStr _`: `Except.error` models the pipeline raising.

The string helpers (`lower`, `strip`, `isSpace`) model the ASCII fragment
of Python's `str.lower` / `str.strip`; every literal compared against in
the source is ASCII.
-/

/-- Python strings modelled as lists of Unicode code points. -/
abbrev PyStr := List Nat

/-- Code points of a Lean string literal, used to transcribe the Python
string literals of the source. -/
def lit (s : String) : PyStr := s.data.map Char.toNat

/-- ASCII case mapping of a single code point, modelling `str.lower`
(the source only ever compares against ASCII keywords). -/
def lowerCh (c : Nat) : Nat := if 65 ≤ c ∧ c ≤ 90 then c + 32 else c

/-- Model of Python `text.lower()`. -/
def lower (s : PyStr) : PyStr := s.map lowerCh

/-- ASCII whitespace test, modelling the character class stripped by
Python `str.strip()` with no argument. -/
def isSpace (c : Nat) : Bool := decide (c = 32 ∨ (9 ≤ c ∧ c ≤ 13))

/-- Model of Python `text.strip()`: remove whitespace from both ends. -/
def strip (s : PyStr) : PyStr :=
  ((s.dropWhile isSpace).reverse.dropWhile isSpace).reverse

/-- Model of the Python substring test `needle in hay`. -/
def containsSub (hay needle : PyStr) : Bool := decide (needle <:+: hay)

/-- State of a `scrolledtext` display region: its text content and whether
the user can edit it (`state=tk.NORMAL` vs `tk.DISABLED`). -/
structure TextWidget where
  content : PyStr
  editable : Bool
deriving DecidableEq

/-- Observable side effects of a handler: warning dialogs
(`messagebox.showwarning`), error dialogs (`messagebox.showerror`), info
dialogs (`messagebox.showinfo`) and calls into an external pipeline. -/
inductive Event where
  | warning (msg : PyStr)
  | errorDialog (msg : PyStr)
  | info (msg : PyStr)
  | pipelineCall (arg : PyStr)
deriving DecidableEq

/-- Embedding of `update_results` (identical in both source files):
enable the widget, delete everything, insert the new content at the end,
disable the widget. -/
def update_results (w : TextWidget) (content : PyStr) : TextWidget :=
  let w1 : TextWidget := { w with editable := true }
  let w2 : TextWidget := { w1 with content := [] }
  let w3 : TextWidget := { w2 with content := w2.content ++ content }
  { w3 with editable := false }

/-- Decimal digits (as code points) of a natural number, fuelled. -/
def natToStrAux : Nat → Nat → List Nat
  | 0, _ => []
  | fuel + 1, n =>
      if n < 10 then [48 + n] else natToStrAux fuel (n / 10) ++ [48 + n % 10]

/-- Model of Python `str(n)` for a natural number. -/
def natToStr (n : Nat) : PyStr := natToStrAux (n + 1) n

/-- Model of the Python format specifier `:.2f` on a nonnegative value:
round `q` to two decimal places (half away from zero, which agrees with
the float formatting at every value reachable in this program) and print
`integer.fraction` with the fraction padded to two digits. -/
def fmt2 (q : ℚ) : PyStr :=
  let r : Int := Int.fdiv (200 * q.num + (q.den : Int)) (2 * (q.den : Int))
  let n : Nat := r.toNat
  natToStr (n / 100) ++ [46] ++ (if n % 100 < 10 then [48] else []) ++ natToStr (n % 100)

/-- Model of the Python format specifier `:.3f` on a nonnegative value. -/
def fmt3 (q : ℚ) : PyStr :=
  let r : Int := Int.fdiv (2000 * q.num + (q.den : Int)) (2 * (q.den : Int))
  let n : Nat := r.toNat
  natToStr (n / 1000) ++ [46] ++
    (if n % 1000 < 10 then [48, 48] else if n % 1000 < 100 then [48] else []) ++
    natToStr (n % 1000)

/-- Model of Python `', '.join(items)`. -/
def joinComma : List PyStr → PyStr
  | [] => []
  | [x] => x
  | x :: y :: xs => x ++ [44, 32] ++ joinComma (y :: xs)

/-- Grouped entity returned by the external NER pipeline. -/
structure Entity where
  entity_group : PyStr
  word : PyStr
  score : ℚ

/-- Prediction returned by the external fill-mask pipeline. -/
structure MaskPrediction where
  sequence : PyStr
  score : ℚ
  token_str : PyStr

/-- The separator line `"=" * 50` used by the entity and mask renderers. -/
def eqBar : PyStr := List.replicate 50 61

/-- Loop body of `extract_entities`: `enumerate(entities, 1)` formatting. -/
def renderEntityLines : Nat → List Entity → PyStr
  | _, [] => []
  | i, e :: es =>
      natToStr i ++ lit ". " ++ e.entity_group ++ lit ": " ++ e.word ++
      lit "\n   Confidence: " ++ fmt3 e.score ++ lit "\n\n" ++
      renderEntityLines (i + 1) es

/-- Result text built by `extract_entities` (identical in both files). -/
def renderEntities (es : List Entity) : PyStr :=
  if es.isEmpty then lit "No named entities found in the text."
  else lit "Extracted Entities:\n" ++ eqBar ++ lit "\n\n" ++ renderEntityLines 1 es

/-- Loop body of `fill_mask`: `enumerate(predictions, 1)` formatting. -/
def renderPredictionLines : Nat → List MaskPrediction → PyStr
  | _, [] => []
  | i, p :: ps =>
      natToStr i ++ lit ". " ++ p.sequence ++
      lit "\n   Confidence: " ++ fmt3 p.score ++
      lit "\n   Token: " ++ p.token_str ++ lit "\n\n" ++
      renderPredictionLines (i + 1) ps

/-- Result text built by `fill_mask` (identical in both files). -/
def renderPredictions (ps : List MaskPrediction) : PyStr :=
  lit "Mask Predictions:\n" ++ eqBar ++ lit "\n\n" ++ renderPredictionLines 1 ps

/-- The literal mask placeholder token `"[MASK]"`. -/
def MASK : PyStr := lit "[MASK]"

/-- Classification label of the spec's `ClassificationResult` data model. -/
inductive Label where
  | EnvironmentRelated
  | NotEnvironmentRelated
deriving DecidableEq

/-- The spec's `ClassificationResult` record: label, reported confidence,
matched keywords in fixed-table order. -/
structure ClassificationResult where
  label : Label
  conf : ℚ
  matched : List PyStr
deriving DecidableEq

namespace ModernApp

/-- The fixed 12-term keyword table of `classify_environment`
(`modern_nlp_app.py`, line 160). -/
def keywords : List PyStr :=
  [lit "climate", lit "pollution", lit "earth", lit "global warming",
   lit "deforestation", lit "recycle", lit "environment", lit "sustainability",
   lit "carbon", lit "emissions", lit "renewable", lit "biodiversity"]

/-- Embedding of `score = sum(1 for kw in keywords if kw in text.lower())`. -/
def matchCount (text : PyStr) : Nat :=
  List.countP (fun kw => containsSub (lower text) kw) keywords

/-- Embedding of `[kw for kw in keywords if kw in text.lower()]`. -/
def matchedKeywords (text : PyStr) : List PyStr :=
  keywords.filter (fun kw => containsSub (lower text) kw)

/-- Embedding of `confidence = min(score / 3, 1.0)`. -/
def confidence (text : PyStr) : ℚ := min ((matchCount text : ℚ) / 3) 1

/-- Result text built by `classify_environment` (`modern_nlp_app.py`,
lines 163-167). -/
def classifyRender (text : PyStr) : PyStr :=
  if matchCount text > 0 then
    lit "Classification: Environment-related\nConfidence: " ++ fmt2 (confidence text) ++
    lit "\nKeywords found: " ++ natToStr (matchCount text) ++ lit "\n\n" ++
    lit "Environmental keywords detected: " ++ joinComma (matchedKeywords text)
  else
    lit "Classification: Not Environment-related\nConfidence: " ++
    fmt2 (1 - confidence text) ++
    lit "\n\nNo environmental keywords detected."

/-- The spec-level `ClassificationResult` computed by the positive/negative
branches of `classify_environment`: label from the branch on `score > 0`,
reported confidence `confidence` resp. `1 - confidence`, matched keywords
listed only in the positive branch. -/
def classifyResult (text : PyStr) : ClassificationResult :=
  if matchCount text > 0 then
    ⟨Label.EnvironmentRelated, confidence text, matchedKeywords text⟩
  else
    ⟨Label.NotEnvironmentRelated, 1 - confidence text, []⟩

/-- Embedding of the `classify_environment` handler: strip the input,
warn on empty input, otherwise render the classification into the
results widget.  The heuristic makes no pipeline call. -/
def classify_environment (input : PyStr) (w : TextWidget) : TextWidget × List Event :=
  let text := strip input
  if text = [] then
    (w, [Event.warning (lit "Please enter some text to analyze.")])
  else
    (update_results w (classifyRender text), [])

/-- Embedding of the `generate_image` handler of `modern_nlp_app.py`:
warn on empty prompt, otherwise set the image label to the placeholder
text (no pipeline exists in this file; `image_gen` is always `None`). -/
def generate_image (input : PyStr) (imageLabel : PyStr) : PyStr × List Event :=
  let prompt := strip input
  if prompt = [] then
    (imageLabel, [Event.warning (lit "Please enter an image prompt.")])
  else
    (lit "Generating image for: '" ++ prompt ++ lit "'\n\n(Image generation placeholder)", [])

/-- Embedding of the `extract_entities` handler: strip, warn on empty,
otherwise call the NER pipeline; render on success, show an error dialog
and leave the widget untouched when the pipeline raises. -/
def extract_entities (ner : PyStr → Except PyStr (List Entity))
    (input : PyStr) (w : TextWidget) : TextWidget × List Event :=
  let text := strip input
  if text = [] then
    (w, [Event.warning (lit "Please enter some text to analyze.")])
  else
    match ner text with
    | Except.error e =>
        (w, [Event.pipelineCall text,
             Event.errorDialog (lit "Entity extraction failed: " ++ e)])
    | Except.ok es =>
        (update_results w (renderEntities es), [Event.pipelineCall text])

/-- Embedding of the `fill_mask` handler of `modern_nlp_app.py`: the two
validation conditions share one combined check and one warning message. -/
def fill_mask (mask_filler : PyStr → Except PyStr (List MaskPrediction))
    (input : PyStr) (w : TextWidget) : TextWidget × List Event :=
  let text := strip input
  if text = [] ∨ containsSub text MASK = false then
    (w, [Event.warning (lit "Please include [MASK] in your text.")])
  else
    match mask_filler text with
    | Except.error e =>
        (w, [Event.pipelineCall text,
             Event.errorDialog (lit "Mask filling failed: " ++ e)])
    | Except.ok ps =>
        (update_results w (renderPredictions ps), [Event.pipelineCall text])

end ModernApp

namespace NlpProject

/-- The fixed 12-term keyword table of `classify_environment`
(`nlp_project.py`, lines 304-306). -/
def keywords : List PyStr :=
  [lit "climate", lit "pollution", lit "earth", lit "global warming",
   lit "deforestation", lit "recycle", lit "environment", lit "sustainability",
   lit "carbon", lit "emissions", lit "renewable", lit "biodiversity"]

/-- Embedding of `score = sum(1 for kw in keywords if kw in text.lower())`
(`nlp_project.py`, line 308). -/
def matchCount (text : PyStr) : Nat :=
  List.countP (fun kw => containsSub (lower text) kw) keywords

/-- Embedding of `[kw for kw in keywords if kw in text.lower()]`
(`nlp_project.py`, line 314). -/
def matchedKeywords (text : PyStr) : List PyStr :=
  keywords.filter (fun kw => containsSub (lower text) kw)

/-- Embedding of `confidence = min(score / 3, 1.0)` (`nlp_project.py`,
line 309). -/
def confidence (text : PyStr) : ℚ := min ((matchCount text : ℚ) / 3) 1

/-- Result text built by `classify_environment` of `nlp_project.py`
(lines 311-317); this file splices a `label` variable into the f-string
where `modern_nlp_app.py` has the label inline. -/
def classifyRender (text : PyStr) : PyStr :=
  if matchCount text > 0 then
    lit "Classification: " ++ lit "Environment-related" ++
    lit "\nConfidence: " ++ fmt2 (confidence text) ++
    lit "\nKeywords found: " ++ natToStr (matchCount text) ++ lit "\n\n" ++
    lit "Environmental keywords detected: " ++ joinComma (matchedKeywords text)
  else
    lit "Classification: " ++ lit "Not Environment-related" ++
    lit "\nConfidence: " ++ fmt2 (1 - confidence text) ++
    lit "\n\nNo environmental keywords detected."

/-- Embedding of the `classify_environment` handler of `nlp_project.py`. -/
def classify_environment (input : PyStr) (w : TextWidget) : TextWidget × List Event :=
  let text := strip input
  if text = [] then
    (w, [Event.warning (lit "Please enter some text to analyze.")])
  else
    (update_results w (classifyRender text), [])

/-- Embedding of the `generate_image` handler of `nlp_project.py`: warn on
empty prompt; if the image pipeline failed to load (`image_gen is None`)
show an info dialog; otherwise set the image label to its placeholder
text. -/
def generate_image (image_gen_available : Bool) (input : PyStr)
    (imageLabel : PyStr) : PyStr × List Event :=
  let prompt := strip input
  if prompt = [] then
    (imageLabel, [Event.warning (lit "Please enter an image prompt.")])
  else if image_gen_available = false then
    (imageLabel,
     [Event.info (lit "Image generation model not available. This would generate an image based on your prompt.")])
  else
    (lit "Generating image for: '" ++ prompt ++ lit "'\n\n(Image generation requires additional setup)", [])

/-- Embedding of the `extract_entities` handler of `nlp_project.py`
(lines 343-363; character-for-character the same logic and messages as in
`modern_nlp_app.py`). -/
def extract_entities (ner : PyStr → Except PyStr (List Entity))
    (input : PyStr) (w : TextWidget) : TextWidget × List Event :=
  let text := strip input
  if text = [] then
    (w, [Event.warning (lit "Please enter some text to analyze.")])
  else
    match ner text with
    | Except.error e =>
        (w, [Event.pipelineCall text,
             Event.errorDialog (lit "Entity extraction failed: " ++ e)])
    | Except.ok es =>
        (update_results w (renderEntities es), [Event.pipelineCall text])

/-- Embedding of the `fill_mask` handler of `nlp_project.py`: unlike
`modern_nlp_app.py` it checks emptiness and the mask placeholder in two
separate steps with two different warning messages. -/
def fill_mask (mask_filler : PyStr → Except PyStr (List MaskPrediction))
    (input : PyStr) (w : TextWidget) : TextWidget × List Event :=
  let text := strip input
  if text = [] then
    (w, [Event.warning (lit "Please enter text with [MASK] tokens.")])
  else if containsSub text MASK = false then
    (w, [Event.warning (lit "Please include [MASK] tokens in your text.")])
  else
    match mask_filler text with
    | Except.error e =>
        (w, [Event.pipelineCall text,
             Event.errorDialog (lit "Mask filling failed: " ++ e)])
    | Except.ok ps =>
        (update_results w (renderPredictions ps), [Event.pipelineCall text])

end NlpProject

/-- Input of the spec's concrete scenario 1. -/
def scenario1 : PyStr := lit "Climate change and pollution affect biodiversity"

/-- Pipeline stand-in returning no predictions, used for concrete
instantiations. -/
def trivialFiller : PyStr → Except PyStr (List MaskPrediction) :=
  fun _ => Except.ok []

/-- Pipeline stand-in that raises, used for concrete instantiations. -/
def failingNer : PyStr → Except PyStr (List Entity) :=
  fun _ => Except.error (lit "boom")

/-- Pipeline stand-in that raises, used for concrete instantiations. -/
def failingFiller : PyStr → Except PyStr (List MaskPrediction) :=
  fun _ => Except.error (lit "boom")

/-- Display region holding some pre-existing content. -/
def w0 : TextWidget := ⟨lit "old content", false⟩

theorem lowerCh_idem (c : Nat) : lowerCh (lowerCh c) = lowerCh c := by
  simp only [lowerCh]
  split
  · split <;> omega
  · rfl

theorem lower_idem (s : PyStr) : lower (lower s) = lower s := by
  simp only [lower, List.map_map]
  congr 1
  funext c
  exact lowerCh_idem c

theorem isSpace_lowerCh (c : Nat) : isSpace (lowerCh c) = isSpace c := by
  simp only [lowerCh, isSpace]
  split
  · rw [decide_eq_decide]
    omega
  · rfl

theorem isSpace_comp_lowerCh : isSpace ∘ lowerCh = isSpace :=
  funext isSpace_lowerCh

theorem strip_lower (s : PyStr) : strip (lower s) = lower (strip s) := by
  simp only [strip, lower, List.dropWhile_map, isSpace_comp_lowerCh, ← List.map_reverse]

theorem strip_lower_eq_nil (s : PyStr) : strip (lower s) = [] ↔ strip s = [] := by
  rw [strip_lower]
  exact List.map_eq_nil_iff

theorem update_results_spec (w : TextWidget) (c : PyStr) :
    update_results w c = ⟨c, false⟩ := rfl

theorem matchCount_eq_length_matchedKeywords (t : PyStr) :
    ModernApp.matchCount t = (ModernApp.matchedKeywords t).length :=
  List.countP_eq_length_filter _ _

/-- Input of the spec's concrete scenario 2. -/
def scenario2 : PyStr := lit "I like cats"

/-- Nonempty mask-fill input containing the mask placeholder. -/
def maskedInput : PyStr := lit "The earth is [MASK]."

/-- Whitespace-only input. -/
def blankInput : PyStr := lit "   "

theorem matchCount_lower (t : PyStr) :
    ModernApp.matchCount (lower t) = ModernApp.matchCount t := by
  unfold ModernApp.matchCount
  rw [lower_idem]

theorem matchedKeywords_lower (t : PyStr) :
    ModernApp.matchedKeywords (lower t) = ModernApp.matchedKeywords t := by
  unfold ModernApp.matchedKeywords
  rw [lower_idem]

theorem confidence_lower (t : PyStr) :
    ModernApp.confidence (lower t) = ModernApp.confidence t := by
  unfold ModernApp.confidence
  rw [matchCount_lower]

theorem classifyRender_lower (t : PyStr) :
    ModernApp.classifyRender (lower t) = ModernApp.classifyRender t := by
  unfold ModernApp.classifyRender
  rw [matchCount_lower, confidence_lower, matchedKeywords_lower]

theorem classifyResult_lower (t : PyStr) :
    ModernApp.classifyResult (lower t) = ModernApp.classifyResult t := by
  unfold ModernApp.classifyResult
  rw [matchCount_lower, confidence_lower, matchedKeywords_lower]

/-- C1: for every input text that is non-empty after trimming,
`classify_environment` computes `matchCount` as the number of distinct
terms of the fixed 12-term keyword set occurring as substrings of the
lower-cased text (each matching term contributes exactly one, via a
filter over the duplicate-free keyword table), computes
`confidence = min(matchCount / 3, 1.0)`, and for every text containing at
least 3 distinct keywords it returns label `EnvironmentRelated` with
confidence 1.0 and renders the positive result block. -/
theorem C1_classify_heuristic (input : PyStr) (w : TextWidget)
    (h : strip input ≠ []) :
    ModernApp.matchCount (strip input)
      = (ModernApp.keywords.filter
          (fun kw => containsSub (lower (strip input)) kw)).length
    ∧ ModernApp.keywords.length = 12
    ∧ ModernApp.keywords.Nodup
    ∧ ModernApp.confidence (strip input)
        = min ((ModernApp.matchCount (strip input) : ℚ) / 3) 1
    ∧ (3 ≤ ModernApp.matchCount (strip input) →
        (ModernApp.classifyResult (strip input)).label = Label.EnvironmentRelated
        ∧ (ModernApp.classifyResult (strip input)).conf = 1
        ∧ ModernApp.classify_environment input w
            = (update_results w (ModernApp.classifyRender (strip input)), [])) := by
  refine ⟨List.countP_eq_length_filter _ _, rfl, by decide, rfl, fun h3 => ?_⟩
  have hpos : ModernApp.matchCount (strip input) > 0 := by omega
  have hconf : ModernApp.confidence (strip input) = 1 := by
    unfold ModernApp.confidence
    exact min_eq_right ((one_le_div (by norm_num)).mpr (by exact_mod_cast h3))
  refine ⟨?_, ?_, ?_⟩
  · unfold ModernApp.classifyResult
    rw [if_pos hpos]
  · unfold ModernApp.classifyResult
    rw [if_pos hpos]
    simpa using hconf
  · simp only [ModernApp.classify_environment]
    rw [if_neg h]

/-- C1 witness: scenario 1 input has three distinct keywords; instantiating
`C1_classify_heuristic` there yields the positive label with confidence 1. -/
theorem C1_witness :
    strip scenario1 ≠ [] ∧ 3 ≤ ModernApp.matchCount (strip scenario1)
    ∧ ((ModernApp.classifyResult (strip scenario1)).label = Label.EnvironmentRelated
       ∧ (ModernApp.classifyResult (strip scenario1)).conf = 1
       ∧ ModernApp.classify_environment scenario1 w0
          = (update_results w0 (ModernApp.classifyRender (strip scenario1)), [])) :=
  ⟨by decide, by decide,
   (C1_classify_heuristic scenario1 w0 (by decide)).2.2.2.2 (by decide)⟩

/-- C2: for every non-empty (after trimming) input matching no keyword,
the classification result is `NotEnvironmentRelated` with reported
confidence exactly 1 (since `matchCount = 0` forces `confidence = 0`),
the matched-keyword sequence is empty, and the rendered block is the
negative-case text with confidence printed as `1.00`. -/
theorem C2_negative_case (input : PyStr) (h : strip input ≠ [])
    (h0 : ModernApp.matchCount (strip input) = 0) :
    ModernApp.classifyResult (strip input)
      = ⟨Label.NotEnvironmentRelated, 1, []⟩
    ∧ ModernApp.matchedKeywords (strip input) = []
    ∧ ModernApp.classifyRender (strip input)
      = lit "Classification: Not Environment-related\nConfidence: 1.00\n\nNo environmental keywords detected." := by
  have hneg : ¬ ModernApp.matchCount (strip input) > 0 := by omega
  have hone : (1 : ℚ) - ModernApp.confidence (strip input) = 1 := by
    unfold ModernApp.confidence
    rw [h0]
    norm_num
  have hmk : ModernApp.matchedKeywords (strip input) = [] := by
    have hlen := matchCount_eq_length_matchedKeywords (strip input)
    rw [h0] at hlen
    exact List.eq_nil_of_length_eq_zero hlen.symm
  refine ⟨?_, hmk, ?_⟩
  · unfold ModernApp.classifyResult
    rw [if_neg hneg, hone]
  · unfold ModernApp.classifyRender
    rw [if_neg hneg, hone]
    decide

/-- C2 witness: scenario 2 input "I like cats" matches no keyword and is
classified `NotEnvironmentRelated` with reported confidence 1. -/
theorem C2_witness :
    strip scenario2 ≠ [] ∧ ModernApp.matchCount (strip scenario2) = 0
    ∧ ModernApp.classifyResult (strip scenario2)
        = ⟨Label.NotEnvironmentRelated, 1, []⟩ :=
  ⟨by decide, by decide, (C2_negative_case scenario2 (by decide) (by decide)).1⟩

/-- C3: the shared render routine `update_results` replaces the entire
prior contents of the target display region: rendering "A" then "B"
leaves the region containing exactly "B", and the region is read-only
(not editable) afterward. -/
theorem C3_render_replaces_all (w : TextWidget) (a b : PyStr) :
    (update_results (update_results w a) b).content = b
    ∧ (update_results (update_results w a) b).editable = false :=
  ⟨rfl, rfl⟩

/-- C10: for every non-empty input with positive `matchCount`, the
positive-case output is internally consistent: the number printed after
"Keywords found:" (`matchCount`) equals the number of strings in the
comma-joined matched-keyword list (`matchedKeywords`), both computed
from the same containment test; the count lies between 1 and 12; and the
rendered block prints exactly these two quantities. -/
theorem C10_positive_output_consistent (input : PyStr)
    (h : strip input ≠ []) (hpos : 0 < ModernApp.matchCount (strip input)) :
    ModernApp.matchCount (strip input)
      = (ModernApp.matchedKeywords (strip input)).length
    ∧ 1 ≤ ModernApp.matchCount (strip input)
    ∧ ModernApp.matchCount (strip input) ≤ 12
    ∧ ModernApp.classifyRender (strip input)
      = lit "Classification: Environment-related\nConfidence: "
        ++ fmt2 (ModernApp.confidence (strip input))
        ++ lit "\nKeywords found: " ++ natToStr (ModernApp.matchCount (strip input))
        ++ lit "\n\n" ++ lit "Environmental keywords detected: "
        ++ joinComma (ModernApp.matchedKeywords (strip input)) := by
  refine ⟨matchCount_eq_length_matchedKeywords _, hpos, ?_, ?_⟩
  · unfold ModernApp.matchCount
    exact le_trans (List.countP_le_length _) (by decide)
  · unfold ModernApp.classifyRender
    rw [if_pos hpos]

/-- C10 witness: scenario 1 instantiates the consistency invariant. -/
theorem C10_witness :
    strip scenario1 ≠ [] ∧ 0 < ModernApp.matchCount (strip scenario1)
    ∧ ModernApp.matchCount (strip scenario1)
        = (ModernApp.matchedKeywords (strip scenario1)).length :=
  ⟨by decide, by decide,
   (C10_positive_output_consistent scenario1 (by decide) (by decide)).1⟩

/-- C5: for every input that is empty after trimming, each of the four
actions in both files performs no pipeline call, produces exactly one
validation warning, and returns leaving every result region (and the
image label) unchanged; the result pair is literally the unchanged state
together with a single warning event. -/
theorem C5_empty_input (input : PyStr) (h : strip input = [])
    (w : TextWidget) (imageLabel : PyStr)
    (ner : PyStr → Except PyStr (List Entity))
    (mask_filler : PyStr → Except PyStr (List MaskPrediction))
    (avail : Bool) :
    ModernApp.classify_environment input w
      = (w, [Event.warning (lit "Please enter some text to analyze.")])
    ∧ ModernApp.extract_entities ner input w
      = (w, [Event.warning (lit "Please enter some text to analyze.")])
    ∧ ModernApp.fill_mask mask_filler input w
      = (w, [Event.warning (lit "Please include [MASK] in your text.")])
    ∧ ModernApp.generate_image input imageLabel
      = (imageLabel, [Event.warning (lit "Please enter an image prompt.")])
    ∧ NlpProject.classify_environment input w
      = (w, [Event.warning (lit "Please enter some text to analyze.")])
    ∧ NlpProject.extract_entities ner input w
      = (w, [Event.warning (lit "Please enter some text to analyze.")])
    ∧ NlpProject.fill_mask mask_filler input w
      = (w, [Event.warning (lit "Please enter text with [MASK] tokens.")])
    ∧ NlpProject.generate_image avail input imageLabel
      = (imageLabel, [Event.warning (lit "Please enter an image prompt.")]) := by
  refine ⟨?_, ?_, ?_, ?_, ?_, ?_, ?_, ?_⟩
  · simp [ModernApp.classify_environment, h]
  · simp [ModernApp.extract_entities, h]
  · simp [ModernApp.fill_mask, h]
  · simp [ModernApp.generate_image, h]
  · simp [NlpProject.classify_environment, h]
  · simp [NlpProject.extract_entities, h]
  · simp [NlpProject.fill_mask, h]
  · simp [NlpProject.generate_image, h]

/-- C5 witness: a whitespace-only input instantiates the empty-input
behavior of `classify_environment`. -/
theorem C5_witness :
    strip blankInput = []
    ∧ ModernApp.classify_environment blankInput w0
        = (w0, [Event.warning (lit "Please enter some text to analyze.")]) :=
  ⟨by decide,
   (C5_empty_input blankInput (by decide) w0 [] failingNer failingFiller false).1⟩

/-- C6: for every mask-fill input that is non-empty after trimming but
lacks the literal "[MASK]" placeholder, both files abort with one
user-facing warning and make no pipeline call. -/
theorem C6_missing_mask (input : PyStr) (w : TextWidget)
    (mask_filler : PyStr → Except PyStr (List MaskPrediction))
    (h1 : strip input ≠ [])
    (h2 : containsSub (strip input) MASK = false) :
    ModernApp.fill_mask mask_filler input w
      = (w, [Event.warning (lit "Please include [MASK] in your text.")])
    ∧ NlpProject.fill_mask mask_filler input w
      = (w, [Event.warning (lit "Please include [MASK] tokens in your text.")]) := by
  constructor
  · simp [ModernApp.fill_mask, h2]
  · simp [NlpProject.fill_mask, h1, h2]

/-- C6 witness: the non-empty input "hello" lacking the placeholder is
rejected with the warning and no pipeline call. -/
theorem C6_witness :
    strip (lit "hello") ≠ []
    ∧ containsSub (strip (lit "hello")) MASK = false
    ∧ ModernApp.fill_mask failingFiller (lit "hello") w0
        = (w0, [Event.warning (lit "Please include [MASK] in your text.")]) :=
  ⟨by decide, by decide,
   (C6_missing_mask (lit "hello") w0 failingFiller (by decide) (by decide)).1⟩

/-- C4: for every input on which the external pipeline raises during
entity extraction or mask filling, the error is caught and surfaced as an
error dialog carrying the underlying message, and the display region is
returned unchanged (no render occurs on the error path), in both files.
Entity extraction reaches its pipeline on every input that is non-empty
after trimming; mask filling reaches its pipeline only when the input
additionally contains the mask placeholder, so only the two mask-fill
conclusions carry that extra condition. -/
theorem C4_pipeline_error_caught (input : PyStr) (w : TextWidget) (e : PyStr)
    (ner : PyStr → Except PyStr (List Entity))
    (mask_filler : PyStr → Except PyStr (List MaskPrediction))
    (h : strip input ≠ [])
    (hner : ner (strip input) = Except.error e)
    (hmf : mask_filler (strip input) = Except.error e) :
    ModernApp.extract_entities ner input w
      = (w, [Event.pipelineCall (strip input),
             Event.errorDialog (lit "Entity extraction failed: " ++ e)])
    ∧ NlpProject.extract_entities ner input w
      = (w, [Event.pipelineCall (strip input),
             Event.errorDialog (lit "Entity extraction failed: " ++ e)])
    ∧ (containsSub (strip input) MASK = true →
        ModernApp.fill_mask mask_filler input w
          = (w, [Event.pipelineCall (strip input),
                 Event.errorDialog (lit "Mask filling failed: " ++ e)])
        ∧ NlpProject.fill_mask mask_filler input w
          = (w, [Event.pipelineCall (strip input),
                 Event.errorDialog (lit "Mask filling failed: " ++ e)])) := by
  refine ⟨?_, ?_, fun hm => ⟨?_, ?_⟩⟩
  · simp [ModernApp.extract_entities, h, hner]
  · simp [NlpProject.extract_entities, h, hner]
  · simp [ModernApp.fill_mask, h, hm, hmf]
  · simp [NlpProject.fill_mask, h, hm, hmf]

/-- C4 witness: a raising NER pipeline on the concrete mask-free input
"hello", and a raising mask-fill pipeline on the concrete masked input,
each leave the display region at its previous content and surface the
error dialog. -/
theorem C4_witness :
    strip (lit "hello") ≠ []
    ∧ ModernApp.extract_entities failingNer (lit "hello") w0
        = (w0, [Event.pipelineCall (strip (lit "hello")),
                Event.errorDialog (lit "Entity extraction failed: " ++ lit "boom")])
    ∧ strip maskedInput ≠ []
    ∧ containsSub (strip maskedInput) MASK = true
    ∧ ModernApp.fill_mask failingFiller maskedInput w0
        = (w0, [Event.pipelineCall (strip maskedInput),
                Event.errorDialog (lit "Mask filling failed: " ++ lit "boom")]) :=
  ⟨by decide,
   (C4_pipeline_error_caught (lit "hello") w0 (lit "boom") failingNer failingFiller
      (by decide) rfl rfl).1,
   by decide, by decide,
   ((C4_pipeline_error_caught maskedInput w0 (lit "boom") failingNer failingFiller
      (by decide) rfl rfl).2.2 (by decide)).1⟩

/-- C8: `classify_environment` is case-insensitive: lower-casing the
input changes neither `matchCount`, nor the classification result
(label, confidence, matched keywords), nor the handler's output. -/
theorem C8_case_insensitive (input : PyStr) (w : TextWidget) :
    ModernApp.matchCount (lower input) = ModernApp.matchCount input
    ∧ ModernApp.classifyResult (lower input) = ModernApp.classifyResult input
    ∧ ModernApp.classify_environment (lower input) w
      = ModernApp.classify_environment input w := by
  refine ⟨matchCount_lower input, classifyResult_lower input, ?_⟩
  simp only [ModernApp.classify_environment]
  by_cases h : strip input = []
  · rw [strip_lower, h]
    simp [lower]
  · rw [strip_lower,
        if_neg (by simpa [lower, List.map_eq_nil_iff] using h),
        if_neg h, classifyRender_lower]

/-- C7: on scenario 1 input, `matchCount = 3`, the result is
`EnvironmentRelated` with confidence 1 (formatted `1.00`), and the
rendered block lists the label, the confidence, the keyword count and
exactly the keywords climate, pollution, biodiversity in fixed-table
order. -/
theorem C7_scenario1 :
    ModernApp.matchCount (strip scenario1) = 3
    ∧ ModernApp.classifyResult (strip scenario1)
        = ⟨Label.EnvironmentRelated, 1,
           [lit "climate", lit "pollution", lit "biodiversity"]⟩
    ∧ ModernApp.classifyRender (strip scenario1)
        = lit "Classification: Environment-related\nConfidence: 1.00\nKeywords found: 3\n\nEnvironmental keywords detected: climate, pollution, biodiversity" := by
  have hm3 : ModernApp.matchCount (strip scenario1) = 3 := by decide
  have hpos : ModernApp.matchCount (strip scenario1) > 0 := by
    rw [hm3]
    norm_num
  have hconf : ModernApp.confidence (strip scenario1) = 1 := by
    unfold ModernApp.confidence
    rw [hm3]
    norm_num
  have hmk : ModernApp.matchedKeywords (strip scenario1)
      = [lit "climate", lit "pollution", lit "biodiversity"] := by decide
  refine ⟨hm3, ?_, ?_⟩
  · unfold ModernApp.classifyResult
    rw [if_pos hpos, hconf, hmk]
  · unfold ModernApp.classifyRender
    rw [if_pos hpos, hconf, hm3, hmk]
    decide

/-- Helper for C9: the classification renderers of the two files build
the same text; `nlp_project.py` splices a `label` variable where
`modern_nlp_app.py` writes the label inline. -/
theorem classifyRender_project_eq (t : PyStr) :
    NlpProject.classifyRender t = ModernApp.classifyRender t := by
  unfold NlpProject.classifyRender ModernApp.classifyRender
  rw [show NlpProject.matchCount = ModernApp.matchCount from rfl,
      show NlpProject.confidence = ModernApp.confidence from rfl,
      show NlpProject.matchedKeywords = ModernApp.matchedKeywords from rfl]
  split
  · rw [show lit "Classification: Environment-related\nConfidence: "
        = lit "Classification: " ++ lit "Environment-related" ++ lit "\nConfidence: "
        from by decide]
  · rw [show lit "Classification: Not Environment-related\nConfidence: "
        = lit "Classification: " ++ lit "Not Environment-related" ++ lit "\nConfidence: "
        from by decide]

/-- C9 counterexample: the two files are not warning-for-warning
identical: on the non-empty input "hello" without a mask placeholder the
two `fill_mask` handlers emit differently worded warnings, so the full
results differ at this concrete input. -/
theorem C9_counterexample :
    NlpProject.fill_mask trivialFiller (lit "hello") w0
      ≠ ModernApp.fill_mask trivialFiller (lit "hello") w0 := by decide

/-- C9 amended: the classification handlers and renderers of the two
files agree pointwise and the entity-extraction handlers agree pointwise;
the mask-filling handlers always leave identical display regions and
agree completely on every input that passes validation (non-empty and
containing "[MASK]"), but their validation-warning wordings differ (see
the counterexample); the image-generation feature differs as the claim
itself states. -/
theorem C9_amended_equivalence :
    (∀ t, NlpProject.classifyRender t = ModernApp.classifyRender t)
    ∧ (∀ input w, NlpProject.classify_environment input w
        = ModernApp.classify_environment input w)
    ∧ (∀ ner input w, NlpProject.extract_entities ner input w
        = ModernApp.extract_entities ner input w)
    ∧ (∀ mask_filler input w,
        (NlpProject.fill_mask mask_filler input w).1
          = (ModernApp.fill_mask mask_filler input w).1)
    ∧ (∀ mask_filler input w, strip input ≠ [] →
        containsSub (strip input) MASK = true →
        NlpProject.fill_mask mask_filler input w
          = ModernApp.fill_mask mask_filler input w) := by
  refine ⟨classifyRender_project_eq, ?_, fun ner input w => rfl, ?_, ?_⟩
  · intro input w
    simp only [NlpProject.classify_environment, ModernApp.classify_environment]
    by_cases h : strip input = []
    · simp [h]
    · simp [h, classifyRender_project_eq]
  · intro mask_filler input w
    simp only [NlpProject.fill_mask, ModernApp.fill_mask]
    by_cases h1 : strip input = []
    · simp [h1]
    · by_cases h2 : containsSub (strip input) MASK = false
      · simp [h1, h2]
      · cases hx : mask_filler (strip input) with
        | error e => simp [h1, h2, hx]
        | ok ps => simp [h1, h2, hx]
  · intro mask_filler input w h1 h2
    simp only [NlpProject.fill_mask, ModernApp.fill_mask]
    cases hx : mask_filler (strip input) with
    | error e => simp [h1, h2, hx]
    | ok ps => simp [h1, h2, hx]

/-- C9 witness: on a concrete valid mask input the two `fill_mask`
handlers agree completely. -/
theorem C9_amended_witness :
    strip maskedInput ≠ []
    ∧ containsSub (strip maskedInput) MASK = true
    ∧ NlpProject.fill_mask trivialFiller maskedInput w0
        = ModernApp.fill_mask trivialFiller maskedInput w0 :=
  ⟨by decide, by decide,
   C9_amended_equivalence.2.2.2.2 trivialFiller maskedInput w0
     (by decide) (by decide)⟩
